import Mathlib

/-!
# TestCracks: a shallow embedding of the core engine

This file models the TestCracks C testing framework (`src/testcracks.c`,
`include/testcracks.h`): the result model (`TestResult`, constructors,
`tc_combine`), the test/suite model and execution engine
(`tc_run_test`, `tc__run_suite_ex`, `tc__run_all_ex`), the CLI filter and
driver (`tc_main`), and the JUnit XML serializer (`tc__xml_escape`,
`tc_write_junit_xml`).

Modelling conventions:
* C strings are Lean `String`s (or `List Char` where character-level
  recursion is needed); `NULL` string arguments that the source
  distinguishes are modelled with `Option`.
* Fixed-capacity C arrays carrying a separate count are modelled as Lean
  lists whose length is the count; capacity limits are enforced exactly
  where the source enforces them.
* Wall-clock measurements (`tc__get_time_ms` differences) are
  nondeterministic inputs: they are passed in as explicit `Nat`
  millisecond oracles.
* Calls into user-supplied functions (test bodies, setup, teardown) are
  recorded in an explicit event trace so that "is never invoked" facts
  are statable.
-/

namespace TestCracks

/-! ## Configuration constants (`testcracks.h`) -/

def TC_MAX_ERRORS : Nat := 50
def TC_MAX_MSG_LEN : Nat := 512
def TC_MAX_TESTS_PER_SUITE : Nat := 256
def TC_MAX_SUITES : Nat := 64

/-! ## Core types (`testcracks.h`) -/

inductive ResultTag where
  | TC_PASS
  | TC_FAIL
  | TC_SKIP
deriving DecidableEq, Repr

structure TestError where
  message : String
  expected : String
  actual : String
deriving DecidableEq, Repr

/-- Struct `TestResult`: the C struct keeps a fixed array `errors[TC_MAX_ERRORS]`
plus a count `error_count`; we keep the meaningful prefix as a list. -/
structure TestResult where
  tag : ResultTag
  errors : List TestError
  elapsed_ms : Nat
deriving DecidableEq, Repr

/-- Field `error_count` is the length of the meaningful prefix of the C array. -/
def TestResult.error_count (r : TestResult) : Nat := r.errors.length

/-! ## Internal helpers -/

/-- Helper `tc__safe_copy`: copy at most `max - 1` characters (C truncates a
source whose `strlen` is `>= max`). The `NULL`-source case is handled at
call sites via `Option`. -/
def tc__safe_copy (src : String) (max : Nat) : String :=
  if max ≤ src.length then src.take (max - 1) else src

/-- Helper `tc__append_error`: append one error record if below capacity. -/
def tc__append_error (r : TestResult) (msg expected actual : String) : TestResult :=
  if r.error_count < TC_MAX_ERRORS then
    { r with errors := r.errors ++
        [{ message := tc__safe_copy msg TC_MAX_MSG_LEN,
           expected := tc__safe_copy expected TC_MAX_MSG_LEN,
           actual := tc__safe_copy actual TC_MAX_MSG_LEN }] }
  else r

/-! ## Result constructors -/

def tc_pass : TestResult :=
  { tag := .TC_PASS, errors := [], elapsed_ms := 0 }

def tc_fail (msg : String) : TestResult :=
  tc__append_error { tag := .TC_FAIL, errors := [], elapsed_ms := 0 } msg "" ""

def tc_fail_with (msg expected actual : String) : TestResult :=
  tc__append_error { tag := .TC_FAIL, errors := [], elapsed_ms := 0 } msg expected actual

def tc_skip (reason : String) : TestResult :=
  tc__append_error { tag := .TC_SKIP, errors := [], elapsed_ms := 0 } reason "" ""

/-! ## Result predicates -/

def tc_is_pass (r : TestResult) : Bool := r.tag = .TC_PASS
def tc_is_fail (r : TestResult) : Bool := r.tag = .TC_FAIL
def tc_is_skip (r : TestResult) : Bool := r.tag = .TC_SKIP

/-! ## Composition (`tc_combine`)

The C fail-branch copies `a`'s errors while the destination count is
below `TC_MAX_ERRORS`, then `b`'s errors under the same bound; the two
loops are the two `take`s below. -/

def tc_combine (a b : TestResult) : TestResult :=
  if a.tag = .TC_SKIP then a
  else if b.tag = .TC_SKIP then b
  else if a.tag = .TC_PASS ∧ b.tag = .TC_PASS then a
  else
    let e1 := a.errors.take TC_MAX_ERRORS
    let e2 := b.errors.take (TC_MAX_ERRORS - e1.length)
    { tag := .TC_FAIL, errors := e1 ++ e2, elapsed_ms := 0 }

/-! ## Skip guards -/

def tc_skip_if (cond : Bool) (reason : String) : TestResult :=
  if cond then tc_skip reason else tc_pass

def tc_skip_unless (cond : Bool) (reason : String) : TestResult :=
  if cond then tc_pass else tc_skip reason

/-! ## Test & suite model

A C `Test` holds `name`, `fn` (a function pointer, `NULL` meaning static
skip) and `skip_reason` (`NULL` meaning unset). A test function receives
the environment handle, which is `NULL` when no setup ran, hence
`Option Env`. -/

structure Test (Env : Type) where
  name : String
  fn : Option (Option Env → TestResult)
  skip_reason : Option String

/-- A C `Suite`: `tests` is the meaningful prefix of the fixed array, so
`test_count = tests.length`. A setup function pointer, when present, is
modelled by the pair of observations the engine makes of it: its return
code and the environment it stores through `*env`. Teardown is only ever
invoked for effect, so only its presence is modelled; its invocation is
recorded in the event trace. -/
structure Suite (Env : Type) where
  name : String
  tests : List (Test Env)
  setup : Option (Int × Env)
  has_teardown : Bool

/-- Field `test_count` of the C struct. -/
def Suite.test_count {Env : Type} (s : Suite Env) : Nat := s.tests.length

/-- Constructor `tc_suite_with`: copies tests up to `TC_MAX_TESTS_PER_SUITE`
(the C loop stops at the first `NULL` name or at capacity). -/
def tc_suite_with {Env : Type} (name : String) (setup : Option (Int × Env))
    (teardown : Bool) (tests : List (Test Env)) : Suite Env :=
  { name := name, tests := tests.take TC_MAX_TESTS_PER_SUITE,
    setup := setup, has_teardown := teardown }

def tc_suite {Env : Type} (name : String) (tests : List (Test Env)) : Suite Env :=
  tc_suite_with name none false tests

def tc_skip_test {Env : Type} (name : String) (reason : String) : Test Env :=
  { name := name, fn := none, skip_reason := some reason }

/-- Observable calls into user-supplied code, plus the XML pre-creation
side effect of `tc_main`. -/
inductive Event where
  | setupCalled
  | testCalled (name : String)
  | teardownCalled
  | filePrecreated (path : String)
deriving DecidableEq, Repr

structure RunSummary where
  passed : Nat
  failed : Nat
  skipped : Nat
  total_ms : Nat
deriving DecidableEq, Repr

/-! ## Runners

`duration` stands for the wall-clock difference the C code measures
around the single test-function invocation. -/

/-- Runner `tc_run_test`: static skip when `fn == NULL`, otherwise invoke the
function and overwrite `elapsed_ms` with the measured duration. -/
def tc_run_test {Env : Type} (t : Test Env) (env : Option Env) (duration : Nat) :
    TestResult × List Event :=
  match t.fn with
  | none =>
      (tc_skip (match t.skip_reason with | some r => r | none => "skipped"), [])
  | some f =>
      let r := f env
      ({ r with elapsed_ms := duration }, [.testCalled t.name])

/-- The per-test loop of `tc__run_suite_ex`: runs tests in order, counts
tags, collects the per-test result snapshots the C code stores into
`tc__results[suite_idx]`, and concatenates event traces. `durs` feeds one
measured duration per test. -/
def tc__run_tests {Env : Type} (tests : List (Test Env)) (env : Option Env)
    (durs : List Nat) : (Nat × Nat × Nat) × List TestResult × List Event :=
  match tests with
  | [] => ((0, 0, 0), [], [])
  | t :: rest =>
      let (r, ev) := tc_run_test t env (durs.headD 0)
      let (counts, rs, evs) := tc__run_tests rest env durs.tail
      let counts' :=
        match r.tag with
        | .TC_PASS => (counts.1 + 1, counts.2.1, counts.2.2)
        | .TC_FAIL => (counts.1, counts.2.1 + 1, counts.2.2)
        | .TC_SKIP => (counts.1, counts.2.1, counts.2.2 + 1)
      (counts', r :: rs, ev ++ evs)

/-- Runner `tc__run_suite_ex`: on a nonzero setup return the function returns
early with `failed = test_count` and the zeroed (memset) summary fields,
storing no per-test results and calling neither tests nor teardown.
`suiteMs` is the wall-clock measurement for the whole suite; the early
return leaves `total_ms` at its memset value `0`. -/
def tc__run_suite_ex {Env : Type} (s : Suite Env) (durs : List Nat) (suiteMs : Nat) :
    RunSummary × List TestResult × List Event :=
  match s.setup with
  | some (ret, env) =>
      if ret ≠ 0 then
        ({ passed := 0, failed := s.test_count, skipped := 0, total_ms := 0 },
         [], [.setupCalled])
      else
        let (counts, rs, evs) := tc__run_tests s.tests (some env) durs
        ({ passed := counts.1, failed := counts.2.1, skipped := counts.2.2,
           total_ms := suiteMs },
         rs,
         .setupCalled :: evs ++ (if s.has_teardown then [.teardownCalled] else []))
  | none =>
      let (counts, rs, evs) := tc__run_tests s.tests none durs
      ({ passed := counts.1, failed := counts.2.1, skipped := counts.2.2,
         total_ms := suiteMs },
       rs,
       evs ++ (if s.has_teardown then [.teardownCalled] else []))

/-- Runner `tc_run_suite` runs with `suite_idx = -1`, i.e. without storing
snapshots; the summary and trace are those of `tc__run_suite_ex`. -/
def tc_run_suite {Env : Type} (s : Suite Env) (durs : List Nat) (suiteMs : Nat) :
    RunSummary :=
  (tc__run_suite_ex s durs suiteMs).1

/-- Runner `tc__run_all_ex` with `store_results = 1`: runs the suites in order,
sums the counters, and keeps suite `i`'s snapshots exactly when
`i < TC_MAX_SUITES` (the storage guard inside `tc__run_suite_ex`);
`tc__result_counts` was memset to zero, so an out-of-range or
setup-failed suite contributes an empty snapshot list. -/
def tc__run_all_go {Env : Type} (suites : List (Suite Env)) (idx : Nat)
    (durss : List (List Nat)) (suiteMss : List Nat) :
    (Nat × Nat × Nat) × List (List TestResult) × List Event :=
  match suites with
  | [] => ((0, 0, 0), [], [])
  | s :: rest =>
      let (sum1, rs, evs) := tc__run_suite_ex s (durss.headD []) (suiteMss.headD 0)
      let (counts, stored, evs') := tc__run_all_go rest (idx + 1) durss.tail suiteMss.tail
      ((counts.1 + sum1.passed, counts.2.1 + sum1.failed, counts.2.2 + sum1.skipped),
       (if idx < TC_MAX_SUITES then rs else []) :: stored,
       evs ++ evs')

def tc__run_all_ex {Env : Type} (suites : List (Suite Env))
    (durss : List (List Nat)) (suiteMss : List Nat) (totalMs : Nat) :
    RunSummary × List (List TestResult) × List Event :=
  let (counts, stored, evs) := tc__run_all_go suites 0 durss suiteMss
  ({ passed := counts.1, failed := counts.2.1, skipped := counts.2.2,
     total_ms := totalMs }, stored, evs)

def tc_run_all {Env : Type} (suites : List (Suite Env))
    (durss : List (List Nat)) (suiteMss : List Nat) (totalMs : Nat) : RunSummary :=
  (tc__run_all_ex suites durss suiteMss totalMs).1

/-- Reporter `tc_print_summary` returns `summary.failed > 0 ? 1 : 0`. -/
def tc_print_summary (summary : RunSummary) : Nat :=
  if 0 < summary.failed then 1 else 0

/-! ## JUnit XML output

### `tc__xml_escape`

The C function walks the source while the destination index `di` stays
below `max - 6`, replacing each of the five reserved characters by its
named entity and copying every other byte; it stops (silently truncating)
as soon as `di` reaches `max - 6`. -/

/-- The character `"` (written numerically). -/
def tc__quoteChar : Char := Char.ofNat 34

/-- The character `'` (written numerically). -/
def tc__aposChar : Char := Char.ofNat 39

/-- The replacement emitted for one source character: the `switch` body
of `tc__xml_escape`. -/
def tc__escape_char (c : Char) : List Char :=
  if c = '&' then ['&', 'a', 'm', 'p', ';']
  else if c = '<' then ['&', 'l', 't', ';']
  else if c = '>' then ['&', 'g', 't', ';']
  else if c = tc__quoteChar then ['&', 'q', 'u', 'o', 't', ';']
  else if c = tc__aposChar then ['&', 'a', 'p', 'o', 's', ';']
  else [c]

/-- The escape loop: `di` is the destination index, checked against
`max - 6` before each source character. -/
def tc__xml_escape_go (src : List Char) (di : Nat) (max : Nat) : List Char :=
  match src with
  | [] => []
  | c :: rest =>
      if di < max - 6 then
        let e := tc__escape_char c
        e ++ tc__xml_escape_go rest (di + e.length) max
      else []

/-- Function `tc__xml_escape(dst, src, max)` as a function of the source string. -/
def tc__xml_escape (src : String) (max : Nat) : String :=
  ⟨tc__xml_escape_go src.data 0 max⟩

/-- The untruncated escape: what `tc__xml_escape` produces whenever the
buffer bound is never hit (every character replaced per the `switch`). -/
def tc__escape_full : List Char → List Char
  | [] => []
  | c :: rest => tc__escape_char c ++ tc__escape_full rest

/-- Modelled from the spec: the standard un-escaping of the five named
XML entities (`&amp; &lt; &gt; &quot; &apos;`), the re-parsing step of the
spec's round-trip property. This inverse is not part of the C source; it
follows the spec's words "using standard named substitutions" /
"re-parsing the produced document yields the original string back". -/
def tc__xml_unescape : List Char → List Char
  | [] => []
  | c :: rest =>
      if c = '&' then
        match rest with
        | 'a' :: 'm' :: 'p' :: ';' :: r => '&' :: tc__xml_unescape r
        | 'l' :: 't' :: ';' :: r => '<' :: tc__xml_unescape r
        | 'g' :: 't' :: ';' :: r => '>' :: tc__xml_unescape r
        | 'q' :: 'u' :: 'o' :: 't' :: ';' :: r => tc__quoteChar :: tc__xml_unescape r
        | 'a' :: 'p' :: 'o' :: 's' :: ';' :: r => tc__aposChar :: tc__xml_unescape r
        | r => c :: tc__xml_unescape r
      else c :: tc__xml_unescape rest

/-! ### Serialization (`tc_write_junit_xml`)

Printf `%.3f` rendering of a millisecond count divided by 1000.0; times
are integral milliseconds in the model, so the three decimals are the
millisecond remainder, zero-padded. -/

def tc__pad3 (n : Nat) : String :=
  if n < 10 then "00" ++ toString n
  else if n < 100 then "0" ++ toString n
  else toString n

/-- Printf `%.3f` applied to `ms / 1000.0`. -/
def tc__fmt_ms_as_s (ms : Nat) : String :=
  toString (ms / 1000) ++ "." ++ tc__pad3 (ms % 1000)

/-- The failure-detail accumulation loop: `pos` tracks the would-be
length `snprintf` reports (its return value), and the loop runs while
`pos < sizeof(detail) - 100`. A chunk is cut to the room left in the
buffer (the `snprintf` size argument); the exact byte-level behaviour of
`snprintf` past the terminator of an already-truncated buffer is not
claim-relevant and is abstracted to plain concatenation of the cut
chunks. -/
def tc__snprintf_cat (buf : String) (pos size : Nat) (chunk : String) :
    String × Nat :=
  (buf ++ chunk.take (size - pos - 1), pos + chunk.length)

def tc__detail_size : Nat := TC_MAX_MSG_LEN * 4

def tc__detail_go (errs : List TestError) (buf : String) (pos : Nat) : String :=
  match errs with
  | [] => buf
  | e :: rest =>
      if pos < tc__detail_size - 100 then
        let c1 := tc__xml_escape e.message (TC_MAX_MSG_LEN * 2) ++ "\n"
        let (buf1, pos1) := tc__snprintf_cat buf pos tc__detail_size c1
        if e.expected ≠ "" then
          let c2 := "  Expected: " ++ tc__xml_escape e.expected (TC_MAX_MSG_LEN * 2) ++ "\n"
          let (buf2, pos2) := tc__snprintf_cat buf1 pos1 tc__detail_size c2
          let c3 := "  Actual:   " ++ tc__xml_escape e.actual (TC_MAX_MSG_LEN * 2) ++ "\n"
          let (buf3, pos3) := tc__snprintf_cat buf2 pos2 tc__detail_size c3
          tc__detail_go rest buf3 pos3
        else
          tc__detail_go rest buf1 pos1
      else buf

/-- One `<testcase>` block, exactly the `fprintf` sequence of the
`switch (r->tag)` in `tc_write_junit_xml`. A skipped test's `time`
attribute is the literal `0`. -/
def tc__render_testcase (name : String) (r : TestResult) : String :=
  let escaped := tc__xml_escape name (TC_MAX_MSG_LEN * 2)
  match r.tag with
  | .TC_PASS =>
      "        <testcase name=\"" ++ escaped ++ "\" time=\"" ++
        tc__fmt_ms_as_s r.elapsed_ms ++ "\"/>\n"
  | .TC_FAIL =>
      "        <testcase name=\"" ++ escaped ++ "\" time=\"" ++
        tc__fmt_ms_as_s r.elapsed_ms ++ "\">\n" ++
      (match r.errors.head? with
       | some e0 =>
           let msg_escaped := tc__xml_escape e0.message (TC_MAX_MSG_LEN * 2)
           let detail := tc__detail_go r.errors "" 0
           "            <failure message=\"" ++ msg_escaped ++
             "\" type=\"AssertionError\">" ++ detail ++ "</failure>\n"
       | none => "") ++
      "        </testcase>\n"
  | .TC_SKIP =>
      "        <testcase name=\"" ++ escaped ++ "\" time=\"0\">\n" ++
      (match r.errors.head? with
       | some e0 =>
           "            <skipped message=\"" ++
             tc__xml_escape e0.message (TC_MAX_MSG_LEN * 2) ++ "\"/>\n"
       | none => "            <skipped/>\n") ++
      "        </testcase>\n"

/-- One `<testsuite>` element: attribute values and child blocks, in
document order. -/
structure XmlSuiteElem where
  name_escaped : String
  tests : Nat
  failures : Nat
  skipped : Nat
  time_ms : Nat
  testcases : List String
deriving DecidableEq, Repr

/-- The root `<testsuites>` element (`errors` is the literal `0`). -/
structure XmlReport where
  tests : Nat
  failures : Nat
  skipped : Nat
  time_ms : Nat
  suites : List XmlSuiteElem
deriving DecidableEq, Repr

/-- One suite element: its counts and time come from the stored
snapshots `tc__results[i][0 .. tc__result_counts[i])` (first loop), its
testcase children from the second loop, which is additionally bounded by
`suite->test_count` — hence the `zip`. -/
def tc__build_suite_elem {Env : Type} (s : Suite Env) (rs : List TestResult) :
    XmlSuiteElem :=
  { name_escaped := tc__xml_escape s.name (TC_MAX_MSG_LEN * 2),
    tests := rs.length,
    failures := (rs.filter (fun r => r.tag = .TC_FAIL)).length,
    skipped := (rs.filter (fun r => r.tag = .TC_SKIP)).length,
    time_ms := (rs.map (·.elapsed_ms)).sum,
    testcases := (s.tests.zip rs).map (fun p => tc__render_testcase p.1.name p.2) }

/-- The per-suite loop: suite `i` reads `tc__result_counts[i]`, which is
zero for any index the run never stored into. -/
def tc__build_suite_elems {Env : Type} :
    List (Suite Env) → List (List TestResult) → List XmlSuiteElem
  | [], _ => []
  | s :: ss, stored => tc__build_suite_elem s (stored.headD []) ::
      tc__build_suite_elems ss stored.tail

/-- Writer `tc_write_junit_xml` (the document it writes, given that the file
opened): root attributes from the grand summary, one element per suite. -/
def tc_write_junit_xml {Env : Type} (suites : List (Suite Env))
    (stored : List (List TestResult)) (summary : RunSummary) : XmlReport :=
  { tests := summary.passed + summary.failed + summary.skipped,
    failures := summary.failed,
    skipped := summary.skipped,
    time_ms := summary.total_ms,
    suites := tc__build_suite_elems suites stored }

/-! ## CLI (`tc_main`) -/

structure CliOpts where
  suite_filter : Option String
  test_filter : Option String
  match_filter : Option String
  xml_file : Option String
  list_only : Bool
deriving DecidableEq, Repr

def CliOpts.init : CliOpts :=
  { suite_filter := none, test_filter := none, match_filter := none,
    xml_file := none, list_only := false }

/-- Substring search `strstr(str, pattern) != NULL`. -/
def tc__strstr : List Char → List Char → Bool
  | s, p =>
      if p.isPrefixOf s then true
      else
        match s with
        | [] => false
        | _ :: rest => tc__strstr rest p

/-- Matcher `tc__matches`: substring containment. -/
def tc__matches (str pattern : String) : Bool :=
  tc__strstr str.data pattern.data

/-- The argument loop of `tc_main`. `none` means `--help`/`-h` was hit
(the C code prints usage and returns 0 at once). A flag whose value
arguments are missing fails its `i + 1 < argc` guard and falls through
every branch, i.e. it is skipped. Unknown arguments are skipped. -/
def tc__parse_args : List String → CliOpts → Option CliOpts
  | [], acc => some acc
  | a :: rest, acc =>
      if a = "--help" ∨ a = "-h" then none
      else if a = "--list" then tc__parse_args rest { acc with list_only := true }
      else if a = "--suite" then
        match rest with
        | v :: r => tc__parse_args r { acc with suite_filter := some v }
        | [] => some acc
      else if a = "--test" then
        match rest with
        | s :: t :: r =>
            tc__parse_args r { acc with suite_filter := some s, test_filter := some t }
        | [v] =>
            -- `i + 2 < argc` fails, so only `--test` itself is skipped and
            -- the loop still processes the single trailing argument `v`
            -- (each value-taking flag would find no value and be skipped).
            if v = "--help" ∨ v = "-h" then none
            else if v = "--list" then some { acc with list_only := true }
            else some acc
        | [] => some acc
      else if a = "--match" then
        match rest with
        | v :: r => tc__parse_args r { acc with match_filter := some v }
        | [] => some acc
      else if a = "--xml" then
        match rest with
        | v :: r => tc__parse_args r { acc with xml_file := some v }
        | [] => some acc
      else tc__parse_args rest acc

/-- The filter loop of `tc_main`: `count` suites kept so far (the loop
also stops scanning once `count` reaches `TC_MAX_SUITES`). With a test or
match filter set, a fresh suite is built keeping name/setup/teardown and
only the tests whose name contains the test filter or the match filter;
a suite left with zero tests is dropped. -/
def tc__filter_go {Env : Type} (suites : List (Suite Env))
    (sf tf mf : Option String) (count : Nat) : List (Suite Env) :=
  match suites with
  | [] => []
  | s :: rest =>
      if TC_MAX_SUITES ≤ count then []
      else if (match sf with | some f => ! tc__matches s.name f | none => false) then
        tc__filter_go rest sf tf mf count
      else if tf.isSome ∨ mf.isSome then
        let ts := s.tests.filter (fun t =>
          (match tf with | some f => tc__matches t.name f | none => false) ||
          (match mf with | some f => tc__matches t.name f | none => false))
        if 0 < ts.length then
          { name := s.name, tests := ts, setup := s.setup,
            has_teardown := s.has_teardown } :: tc__filter_go rest sf tf mf (count + 1)
        else tc__filter_go rest sf tf mf count
      else s :: tc__filter_go rest sf tf mf (count + 1)

def tc__filter {Env : Type} (suites : List (Suite Env)) (o : CliOpts) :
    List (Suite Env) :=
  tc__filter_go suites o.suite_filter o.test_filter o.match_filter 0

/-- The outcome of one `tc_main` invocation: which terminal path the C
code took and what it handed to the reporter. -/
inductive MainOutcome where
  | helpShown
  | xmlCreateFailed (path : String)
  | listed
  | noMatch
  | completed (summary : RunSummary) (report : Option XmlReport)
deriving DecidableEq, Repr

/-- The exit code of each path: `--help`/`--list` return 0, a failed XML
pre-creation and "No tests matched filters." return 1, a completed run
returns `tc_print_summary`. -/
def MainOutcome.exitCode : MainOutcome → Nat
  | .helpShown => 0
  | .xmlCreateFailed _ => 1
  | .listed => 0
  | .noMatch => 1
  | .completed summary _ => tc_print_summary summary

/-- Driver `tc_main` after the XML pre-creation: `--list` prints and exits,
otherwise filter, report "No tests matched filters." on an empty result,
otherwise run everything and optionally write the report.
`canCreate` tells whether `fopen(path, "w")` succeeds. -/
def tc__main_run {Env : Type} (o : CliOpts) (suites : List (Suite Env))
    (canCreate : String → Bool) (durss : List (List Nat)) (suiteMss : List Nat)
    (totalMs : Nat) : MainOutcome × List Event :=
  if o.list_only then (.listed, [])
  else
    let filtered := tc__filter suites o
    if filtered.length = 0 then (.noMatch, [])
    else
      let (summary, stored, evs) := tc__run_all_ex filtered durss suiteMss totalMs
      let report :=
        match o.xml_file with
        | some path =>
            if canCreate path then some (tc_write_junit_xml filtered stored summary)
            else none
        | none => none
      (.completed summary report, evs)

/-- Driver `tc_main`: parse arguments; `--help` runs nothing; with `--xml` the
file is created (truncated) up front and a creation failure aborts the
invocation with exit code 1 before anything runs. -/
def tc_main {Env : Type} (args : List String) (suites : List (Suite Env))
    (canCreate : String → Bool) (durss : List (List Nat)) (suiteMss : List Nat)
    (totalMs : Nat) : MainOutcome × List Event :=
  match tc__parse_args args CliOpts.init with
  | none => (.helpShown, [])
  | some o =>
      match o.xml_file with
      | some path =>
          if canCreate path then
            let (out, evs) := tc__main_run o suites canCreate durss suiteMss totalMs
            (out, .filePrecreated path :: evs)
          else (.xmlCreateFailed path, [])
      | none => tc__main_run o suites canCreate durss suiteMss totalMs

/-! ## Supporting lemmas -/

/-- The two copy loops of `tc_combine`'s fail branch amount to one
truncated concatenation. -/
theorem tc_combine_fail_errors_take (a b : List TestError) :
    a.take TC_MAX_ERRORS ++ b.take (TC_MAX_ERRORS - (a.take TC_MAX_ERRORS).length) =
      (a ++ b).take TC_MAX_ERRORS := by
  rw [List.take_append_eq_append_take, List.length_take]
  have h : TC_MAX_ERRORS - TC_MAX_ERRORS ⊓ a.length = TC_MAX_ERRORS - a.length := by
    omega
  rw [h]

/-- In the non-Skip, non-both-Pass case, `tc_combine` builds the
truncated concatenation of the two error lists. -/
theorem tc_combine_fail_eq (a b : TestResult) (ha : a.tag ≠ .TC_SKIP)
    (hb : b.tag ≠ .TC_SKIP) (hp : ¬(a.tag = .TC_PASS ∧ b.tag = .TC_PASS)) :
    tc_combine a b =
      { tag := .TC_FAIL, errors := (a.errors ++ b.errors).take TC_MAX_ERRORS,
        elapsed_ms := 0 } := by
  simp only [tc_combine, if_neg ha, if_neg hb, if_neg hp]
  rw [tc_combine_fail_errors_take]

/-! ## Claims -/

/-- C1. For all TestResults `a` and `b`, `tc_combine(a,b)` returns:
`a` unchanged if `a` is tagged Skip; else `b` unchanged if `b` is tagged
Skip; else `a` if both are tagged Pass; else a new Fail TestResult whose
error list is `a`'s errors followed by `b`'s errors in that order, with
`error_count = min(TC_MAX_ERRORS, a.error_count + b.error_count)` and
excess errors silently dropped. -/
theorem tc_combine_spec (a b : TestResult) :
    (a.tag = .TC_SKIP → tc_combine a b = a) ∧
    (a.tag ≠ .TC_SKIP → b.tag = .TC_SKIP → tc_combine a b = b) ∧
    (a.tag = .TC_PASS → b.tag = .TC_PASS → tc_combine a b = a) ∧
    (a.tag ≠ .TC_SKIP → b.tag ≠ .TC_SKIP → ¬(a.tag = .TC_PASS ∧ b.tag = .TC_PASS) →
      tc_combine a b =
        { tag := .TC_FAIL, errors := (a.errors ++ b.errors).take TC_MAX_ERRORS,
          elapsed_ms := 0 } ∧
      (tc_combine a b).error_count =
        min TC_MAX_ERRORS (a.error_count + b.error_count)) := by
  refine ⟨fun h => by simp [tc_combine, h], fun h h2 => by simp [tc_combine, h, h2],
    fun h h2 => ?_, fun h h2 h3 => ?_⟩
  · have ha : a.tag ≠ .TC_SKIP := by rw [h]; intro hc; cases hc
    have hb : b.tag ≠ .TC_SKIP := by rw [h2]; intro hc; cases hc
    simp [tc_combine, ha, hb, h, h2]
  · have hcomb := tc_combine_fail_eq a b h h2 h3
    refine ⟨hcomb, ?_⟩
    rw [hcomb]
    simp [TestResult.error_count, List.length_take, Nat.min_comm]

/-- Witness for C1 at a concrete input: combining two Fail results. -/
theorem tc_combine_spec_witness :
    tc_combine (tc_fail "x") (tc_fail "y") =
      { tag := .TC_FAIL,
        errors := ((tc_fail "x").errors ++ (tc_fail "y").errors).take TC_MAX_ERRORS,
        elapsed_ms := 0 } ∧
    (tc_combine (tc_fail "x") (tc_fail "y")).error_count =
      min TC_MAX_ERRORS ((tc_fail "x").error_count + (tc_fail "y").error_count) :=
  (tc_combine_spec (tc_fail "x") (tc_fail "y")).2.2.2
    (by decide) (by decide) (by decide)

/-- C8. Every freshly constructed TestResult satisfies: `tc_pass()`
is tagged Pass with `error_count = 0`; `tc_fail`, `tc_fail_with` and
`tc_skip` are tagged Fail/Fail/Skip with `error_count ≥ 1` and the first
error record holding the primary message; and every constructor and
`tc_combine` keep `0 ≤ error_count ≤ TC_MAX_ERRORS` (`error_count` is a
list length here, so only the upper bound is stated). -/
theorem tc_result_invariants (msg expected actual reason : String) (a b : TestResult)
    (ha : a.error_count ≤ TC_MAX_ERRORS) (hb : b.error_count ≤ TC_MAX_ERRORS) :
    tc_pass.tag = .TC_PASS ∧ tc_pass.error_count = 0 ∧
    (tc_fail msg).tag = .TC_FAIL ∧ 1 ≤ (tc_fail msg).error_count ∧
    (tc_fail msg).errors.head? =
      some { message := tc__safe_copy msg TC_MAX_MSG_LEN, expected := "", actual := "" } ∧
    (tc_fail_with msg expected actual).tag = .TC_FAIL ∧
    1 ≤ (tc_fail_with msg expected actual).error_count ∧
    (tc_fail_with msg expected actual).errors.head? =
      some { message := tc__safe_copy msg TC_MAX_MSG_LEN,
             expected := tc__safe_copy expected TC_MAX_MSG_LEN,
             actual := tc__safe_copy actual TC_MAX_MSG_LEN } ∧
    (tc_skip reason).tag = .TC_SKIP ∧ 1 ≤ (tc_skip reason).error_count ∧
    (tc_skip reason).errors.head? =
      some { message := tc__safe_copy reason TC_MAX_MSG_LEN, expected := "", actual := "" } ∧
    tc_pass.error_count ≤ TC_MAX_ERRORS ∧
    (tc_fail msg).error_count ≤ TC_MAX_ERRORS ∧
    (tc_fail_with msg expected actual).error_count ≤ TC_MAX_ERRORS ∧
    (tc_skip reason).error_count ≤ TC_MAX_ERRORS ∧
    (tc_combine a b).error_count ≤ TC_MAX_ERRORS := by
  have h50 : TC_MAX_ERRORS = 50 := rfl
  have hpc : tc_pass.error_count = 0 := rfl
  have hfc : (tc_fail msg).error_count = 1 := rfl
  have hfwc : (tc_fail_with msg expected actual).error_count = 1 := rfl
  have hsc : (tc_skip reason).error_count = 1 := rfl
  have hcomb : (tc_combine a b).error_count ≤ TC_MAX_ERRORS := by
    by_cases hsa : a.tag = .TC_SKIP
    · simpa [tc_combine, hsa] using ha
    · by_cases hsb : b.tag = .TC_SKIP
      · simpa [tc_combine, hsa, hsb] using hb
      · by_cases hp : a.tag = .TC_PASS ∧ b.tag = .TC_PASS
        · simpa [tc_combine, hsa, hsb, hp] using ha
        · rw [tc_combine_fail_eq a b hsa hsb hp]
          simp only [TestResult.error_count, List.length_take]
          omega
  exact ⟨rfl, rfl, rfl, by omega, rfl, rfl, by omega, rfl, rfl, by omega, rfl,
    by omega, by omega, by omega, by omega, hcomb⟩

/-- Witness for C8 at concrete inputs. -/
theorem tc_result_invariants_witness :
    tc_pass.tag = .TC_PASS ∧ tc_pass.error_count = 0 ∧
    (tc_fail "m").tag = .TC_FAIL ∧ 1 ≤ (tc_fail "m").error_count ∧
    (tc_fail "m").errors.head? =
      some { message := tc__safe_copy "m" TC_MAX_MSG_LEN, expected := "", actual := "" } ∧
    (tc_fail_with "m" "e" "a").tag = .TC_FAIL ∧
    1 ≤ (tc_fail_with "m" "e" "a").error_count ∧
    (tc_fail_with "m" "e" "a").errors.head? =
      some { message := tc__safe_copy "m" TC_MAX_MSG_LEN,
             expected := tc__safe_copy "e" TC_MAX_MSG_LEN,
             actual := tc__safe_copy "a" TC_MAX_MSG_LEN } ∧
    (tc_skip "r").tag = .TC_SKIP ∧ 1 ≤ (tc_skip "r").error_count ∧
    (tc_skip "r").errors.head? =
      some { message := tc__safe_copy "r" TC_MAX_MSG_LEN, expected := "", actual := "" } ∧
    tc_pass.error_count ≤ TC_MAX_ERRORS ∧
    (tc_fail "m").error_count ≤ TC_MAX_ERRORS ∧
    (tc_fail_with "m" "e" "a").error_count ≤ TC_MAX_ERRORS ∧
    (tc_skip "r").error_count ≤ TC_MAX_ERRORS ∧
    (tc_combine tc_pass (tc_fail "m")).error_count ≤ TC_MAX_ERRORS :=
  tc_result_invariants "m" "e" "a" "r" tc_pass (tc_fail "m") (by decide) (by decide)

/-- C3. For every Test whose function reference `fn` is absent and
for every environment handle, `tc_run_test` returns a Skip-tagged
TestResult with `elapsed_ms = 0` whose first error message is the test's
configured `skip_reason` (for a reason within the message length bound),
and never invokes any user-supplied function (empty event trace). -/
theorem tc_run_test_static_skip {Env : Type} (t : Test Env) (env : Option Env)
    (duration : Nat) (reason : String) (hfn : t.fn = none)
    (hr : t.skip_reason = some reason) (hlen : reason.length < TC_MAX_MSG_LEN) :
    tc_run_test t env duration = (tc_skip reason, []) ∧
    (tc_skip reason).tag = .TC_SKIP ∧
    (tc_skip reason).elapsed_ms = 0 ∧
    (tc_skip reason).errors.head?.map TestError.message = some reason := by
  refine ⟨by simp [tc_run_test, hfn, hr], rfl, rfl, ?_⟩
  have hcopy : tc__safe_copy reason TC_MAX_MSG_LEN = reason := by
    unfold tc__safe_copy
    rw [if_neg (by omega)]
  have hcopy2 : tc__safe_copy "" TC_MAX_MSG_LEN = "" := rfl
  simp [tc_skip, tc__append_error, hcopy, hcopy2, TestResult.error_count, TC_MAX_ERRORS]

/-- Witness for C3: a statically-skipped test runs to a Skip result. -/
theorem tc_run_test_static_skip_witness :
    tc_run_test ({ name := "t", fn := none, skip_reason := some "why" } : Test Unit)
        none 5 = (tc_skip "why", []) ∧
    (tc_skip "why").tag = .TC_SKIP ∧
    (tc_skip "why").elapsed_ms = 0 ∧
    (tc_skip "why").errors.head?.map TestError.message = some "why" :=
  tc_run_test_static_skip { name := "t", fn := none, skip_reason := some "why" }
    none 5 "why" rfl rfl (by decide)

/-- C2. For every suite whose setup function is present and returns a
nonzero value, the per-suite run (`tc__run_suite_ex`, used both by
`tc_run_suite` and by the loop of `tc_run_all`) returns a RunSummary with
`failed = test_count`, `passed = 0`, `skipped = 0`; it stores no per-test
results, invokes no test function and never invokes teardown. -/
theorem tc_run_suite_setup_failure {Env : Type} (s : Suite Env) (durs : List Nat)
    (suiteMs : Nat) (ret : Int) (env : Env)
    (hs : s.setup = some (ret, env)) (hret : ret ≠ 0) :
    (tc__run_suite_ex s durs suiteMs).1 =
      { passed := 0, failed := s.test_count, skipped := 0, total_ms := 0 } ∧
    (tc__run_suite_ex s durs suiteMs).2.1 = [] ∧
    (∀ n, Event.testCalled n ∉ (tc__run_suite_ex s durs suiteMs).2.2) ∧
    Event.teardownCalled ∉ (tc__run_suite_ex s durs suiteMs).2.2 ∧
    tc_run_suite s durs suiteMs =
      { passed := 0, failed := s.test_count, skipped := 0, total_ms := 0 } := by
  have hrun : tc__run_suite_ex s durs suiteMs =
      ({ passed := 0, failed := s.test_count, skipped := 0, total_ms := 0 },
       [], [.setupCalled]) := by
    simp [tc__run_suite_ex, hs, hret]
  refine ⟨by rw [hrun], by rw [hrun], ?_, by rw [hrun]; simp, by rw [tc_run_suite, hrun]⟩
  intro n
  rw [hrun]
  simp

/-- Witness for C2: a two-test suite whose setup returns 1. -/
theorem tc_run_suite_setup_failure_witness :
    (tc__run_suite_ex
        ({ name := "F",
           tests := [{ name := "t", fn := none, skip_reason := none },
                     { name := "u", fn := none, skip_reason := none }],
           setup := some (1, ()), has_teardown := true } : Suite Unit) [] 99).1 =
      { passed := 0, failed := 2, skipped := 0, total_ms := 0 } ∧
    Event.teardownCalled ∉
      (tc__run_suite_ex
        ({ name := "F",
           tests := [{ name := "t", fn := none, skip_reason := none },
                     { name := "u", fn := none, skip_reason := none }],
           setup := some (1, ()), has_teardown := true } : Suite Unit) [] 99).2.2 :=
  let out := tc_run_suite_setup_failure
    ({ name := "F",
       tests := [{ name := "t", fn := none, skip_reason := none },
                 { name := "u", fn := none, skip_reason := none }],
       setup := some (1, ()), has_teardown := true } : Suite Unit) [] 99 1 ()
    rfl (by decide)
  ⟨out.1, out.2.2.2.1⟩

/-- A setup-failed suite stores no snapshots and reports
`failed = test_count`, projected out of `tc__run_suite_ex`. -/
theorem tc__run_suite_ex_setup_failed_proj {Env : Type} (s : Suite Env)
    (durs : List Nat) (suiteMs : Nat) (ret : Int) (env : Env)
    (hs : s.setup = some (ret, env)) (hret : ret ≠ 0) :
    (tc__run_suite_ex s durs suiteMs).2.1 = [] ∧
    (tc__run_suite_ex s durs suiteMs).1.failed = s.test_count := by
  simp [tc__run_suite_ex, hs, hret]

/-- Unfolding of the failure counter over one step of the
`tc__run_all_ex` loop. -/
theorem tc__run_all_go_cons_failed {Env : Type} (s : Suite Env)
    (rest : List (Suite Env)) (idx : Nat) (durss : List (List Nat))
    (suiteMss : List Nat) :
    (tc__run_all_go (s :: rest) idx durss suiteMss).1.2.1 =
      (tc__run_all_go rest (idx + 1) durss.tail suiteMss.tail).1.2.1 +
        (tc__run_suite_ex s (durss.headD []) (suiteMss.headD 0)).1.failed := rfl

/-- Unfolding of the snapshot storage over one step of the
`tc__run_all_ex` loop. -/
theorem tc__run_all_go_cons_stored {Env : Type} (s : Suite Env)
    (rest : List (Suite Env)) (idx : Nat) (durss : List (List Nat))
    (suiteMss : List Nat) :
    (tc__run_all_go (s :: rest) idx durss suiteMss).2.1 =
      (if idx < TC_MAX_SUITES then
         (tc__run_suite_ex s (durss.headD []) (suiteMss.headD 0)).2.1
       else []) ::
        (tc__run_all_go rest (idx + 1) durss.tail suiteMss.tail).2.1 := rfl

/-- Through the `tc__run_all_go` loop, a setup-failed suite at position
`k` contributes an empty snapshot slot and its `test_count` to the total
failure counter. -/
theorem tc__run_all_go_setup_failed {Env : Type} (suites : List (Suite Env))
    (idx : Nat) (durss : List (List Nat)) (suiteMss : List Nat) (k : Nat)
    (hk : k < suites.length) (ret : Int) (env : Env)
    (hs : (suites.get ⟨k, hk⟩).setup = some (ret, env)) (hret : ret ≠ 0) :
    (tc__run_all_go suites idx durss suiteMss).2.1.get? k = some [] ∧
    ∃ m, (tc__run_all_go suites idx durss suiteMss).1.2.1 =
      (suites.get ⟨k, hk⟩).test_count + m := by
  induction suites generalizing idx durss suiteMss k with
  | nil => cases hk
  | cons s rest ih =>
    cases k with
    | zero =>
      have hs0 : s.setup = some (ret, env) := hs
      have hproj := tc__run_suite_ex_setup_failed_proj s (durss.headD [])
        (suiteMss.headD 0) ret env hs0 hret
      have hget : ((s :: rest).get ⟨0, hk⟩).test_count = s.test_count := rfl
      constructor
      · rw [tc__run_all_go_cons_stored, List.get?_cons_zero, hproj.1, ite_self]
      · refine ⟨(tc__run_all_go rest (idx + 1) durss.tail suiteMss.tail).1.2.1, ?_⟩
        rw [tc__run_all_go_cons_failed, hproj.2, hget]
        omega
    | succ k' =>
      have hk' : k' < rest.length := Nat.lt_of_succ_lt_succ hk
      have hs' : (rest.get ⟨k', hk'⟩).setup = some (ret, env) := hs
      have hget : ((s :: rest).get ⟨k' + 1, hk⟩).test_count =
        (rest.get ⟨k', hk'⟩).test_count := rfl
      obtain ⟨hstore, m, hm⟩ := ih (idx + 1) durss.tail suiteMss.tail k' hk' hs'
      constructor
      · rw [tc__run_all_go_cons_stored, List.get?_cons_succ]; exact hstore
      · refine ⟨m + (tc__run_suite_ex s (durss.headD []) (suiteMss.headD 0)).1.failed,
          ?_⟩
        rw [tc__run_all_go_cons_failed, hm, hget]
        omega

/-- Unfolding of one step of the writer's per-suite loop. -/
theorem tc__build_suite_elems_cons {Env : Type} (s : Suite Env)
    (rest : List (Suite Env)) (stored : List (List TestResult)) :
    tc__build_suite_elems (s :: rest) stored =
      tc__build_suite_elem s (stored.headD []) ::
        tc__build_suite_elems rest stored.tail := rfl

/-- The XML writer pairs suite `i` with snapshot slot `i`; an empty slot
yields the element built from no results. -/
theorem tc__build_suite_elems_get {Env : Type} (suites : List (Suite Env))
    (stored : List (List TestResult)) (k : Nat) (hk : k < suites.length)
    (hs : stored.get? k = some []) :
    (tc__build_suite_elems suites stored).get? k =
      some (tc__build_suite_elem (suites.get ⟨k, hk⟩) []) := by
  induction suites generalizing stored k with
  | nil => cases hk
  | cons s rest ih =>
    cases k with
    | zero =>
      have hh : stored.headD [] = [] := by cases stored <;> simp_all
      rw [tc__build_suite_elems_cons, List.get?_cons_zero, hh]
      rfl
    | succ k' =>
      have hk' : k' < rest.length := Nat.lt_of_succ_lt_succ hk
      have ht : stored.tail.get? k' = some [] := by cases stored <;> simp_all
      rw [tc__build_suite_elems_cons, List.get?_cons_succ]
      exact ih stored.tail k' hk' ht

/-- C10. For a run in which a suite's setup returned nonzero, the XML
report's element for that suite carries `tests="0"` and `failures="0"`
and contains no testcase children (no snapshots were stored for it),
even though the root element's aggregate failure total includes that
suite's `test_count` failures. -/
theorem xml_setup_failed_suite {Env : Type} (suites : List (Suite Env)) (k : Nat)
    (durss : List (List Nat)) (suiteMss : List Nat) (totalMs : Nat) (ret : Int)
    (env : Env) (hk : k < suites.length)
    (hs : (suites.get ⟨k, hk⟩).setup = some (ret, env)) (hret : ret ≠ 0) :
    (tc_write_junit_xml suites (tc__run_all_ex suites durss suiteMss totalMs).2.1
        (tc__run_all_ex suites durss suiteMss totalMs).1).suites.get? k =
      some (tc__build_suite_elem (suites.get ⟨k, hk⟩) []) ∧
    (tc__build_suite_elem (suites.get ⟨k, hk⟩) []).tests = 0 ∧
    (tc__build_suite_elem (suites.get ⟨k, hk⟩) []).failures = 0 ∧
    (tc__build_suite_elem (suites.get ⟨k, hk⟩) []).testcases = [] ∧
    (tc_write_junit_xml suites (tc__run_all_ex suites durss suiteMss totalMs).2.1
        (tc__run_all_ex suites durss suiteMss totalMs).1).failures =
      (tc__run_all_ex suites durss suiteMss totalMs).1.failed ∧
    ∃ m, (tc__run_all_ex suites durss suiteMss totalMs).1.failed =
      (suites.get ⟨k, hk⟩).test_count + m := by
  obtain ⟨hstore, m, hm⟩ :=
    tc__run_all_go_setup_failed suites 0 durss suiteMss k hk ret env hs hret
  refine ⟨?_, rfl, ?_, ?_, rfl, ⟨m, ?_⟩⟩
  · exact tc__build_suite_elems_get suites _ k hk hstore
  · simp [tc__build_suite_elem]
  · simp [tc__build_suite_elem, List.zip_nil_right]
  · simpa [tc__run_all_ex] using hm

/-! ## Concrete fixtures (the spec's example collection `[A{t1,t2}, B{t3}]`
and a setup-failing suite) -/

def exT1 : Test Unit :=
  { name := "t1", fn := some (fun _ => tc_pass), skip_reason := none }

def exT2 : Test Unit :=
  { name := "t2", fn := some (fun _ => tc_pass), skip_reason := none }

def exT3 : Test Unit :=
  { name := "t3", fn := some (fun _ => tc_pass), skip_reason := none }

def exSuiteA : Suite Unit :=
  { name := "A", tests := [exT1, exT2], setup := none, has_teardown := false }

def exSuiteB : Suite Unit :=
  { name := "B", tests := [exT3], setup := none, has_teardown := false }

def exSuiteFail : Suite Unit :=
  { name := "F", tests := [exT1, exT2], setup := some (1, ()), has_teardown := true }

/-- Witness for C10: a passing suite followed by a setup-failing suite. -/
theorem xml_setup_failed_suite_witness :
    (tc_write_junit_xml [exSuiteB, exSuiteFail]
        (tc__run_all_ex [exSuiteB, exSuiteFail] [] [] 0).2.1
        (tc__run_all_ex [exSuiteB, exSuiteFail] [] [] 0).1).suites.get? 1 =
      some (tc__build_suite_elem ([exSuiteB, exSuiteFail].get ⟨1, by decide⟩) []) ∧
    ∃ m, (tc__run_all_ex [exSuiteB, exSuiteFail] [] [] 0).1.failed =
      ([exSuiteB, exSuiteFail].get ⟨1, by decide⟩).test_count + m :=
  have h := xml_setup_failed_suite [exSuiteB, exSuiteFail] 1 [] [] 0 1 ()
    (by decide) rfl (by decide)
  ⟨h.1, h.2.2.2.2.2⟩

/-- C4. Given the suite collection `[A{t1,t2}, B{t3}]`, running
`tc_main` with arguments `--test "A" "t1"` executes exactly suite A
containing exactly test `t1`: parsing yields the pair filter, the filter
keeps only suite A reduced to `[t1]` (suite B's filtered list is empty,
so B is dropped; order is preserved), and the run's trace invokes only
`t1`. -/
theorem tc_main_test_filter_pair :
    tc__parse_args ["--test", "A", "t1"] CliOpts.init =
      some { suite_filter := some "A", test_filter := some "t1",
             match_filter := none, xml_file := none, list_only := false } ∧
    tc__filter [exSuiteA, exSuiteB]
        { suite_filter := some "A", test_filter := some "t1",
          match_filter := none, xml_file := none, list_only := false } =
      [{ name := "A", tests := [exT1], setup := none, has_teardown := false }] ∧
    (tc_main ["--test", "A", "t1"] [exSuiteA, exSuiteB] (fun _ => true) [] [] 0).2 =
      [Event.testCalled "t1"] :=
  ⟨rfl, rfl, rfl⟩

/-- C5 counterexample. The claim asserts that an empty filter result
("no tests matched", exit 1) is distinguishable from a run invoked on an
empty suite collection with no filters. It is not: both invocations
below produce the identical observable outcome (`noMatch`, empty trace,
exit code 1) — the empty collection also falls into the
`count == 0` branch that prints "No tests matched filters." and
returns 1. -/
theorem tc_main_no_match_indistinguishable :
    tc_main ([] : List String) ([] : List (Suite Unit)) (fun _ => true) [] [] 0 =
      tc_main ["--test", "Zzz", "nope"] [exSuiteA, exSuiteB] (fun _ => true) [] [] 0 ∧
    (tc_main ([] : List String) ([] : List (Suite Unit)) (fun _ => true) [] [] 0).1 =
      MainOutcome.noMatch ∧
    (tc_main ([] : List String) ([] : List (Suite Unit))
        (fun _ => true) [] [] 0).1.exitCode = 1 :=
  ⟨rfl, rfl, rfl⟩

/-- C5 (amended). When filtering produces an empty result set,
`tc_main` reports "No tests matched filters." and exits with code 1; an
invocation on an empty suite collection with no filters takes the very
same branch and is *not* distinguishable from it (same outcome, same
message, same exit code). -/
theorem tc_main_no_match_reports {Env : Type} (args : List String)
    (suites : List (Suite Env)) (canCreate : String → Bool)
    (durss : List (List Nat)) (suiteMss : List Nat) (totalMs : Nat) (o : CliOpts)
    (hp : tc__parse_args args CliOpts.init = some o)
    (hl : o.list_only = false) (hx : o.xml_file = none)
    (hf : tc__filter suites o = []) :
    tc_main args suites canCreate durss suiteMss totalMs = (.noMatch, []) ∧
    MainOutcome.noMatch.exitCode = 1 ∧
    tc_main args suites canCreate durss suiteMss totalMs =
      tc_main [] ([] : List (Suite Env)) canCreate durss suiteMss totalMs := by
  have hmain : tc_main args suites canCreate durss suiteMss totalMs = (.noMatch, []) := by
    simp [tc_main, hp, hx, tc__main_run, hl, hf]
  refine ⟨hmain, rfl, ?_⟩
  rw [hmain]
  rfl

/-- Witness for C5's amended theorem: the pair filter `--test Zzz nope`
matches nothing in `[A, B]`. -/
theorem tc_main_no_match_reports_witness :
    tc_main ["--test", "Zzz", "nope"] [exSuiteA, exSuiteB] (fun _ => true) [] [] 0 =
      (.noMatch, []) ∧
    MainOutcome.noMatch.exitCode = 1 ∧
    tc_main ["--test", "Zzz", "nope"] [exSuiteA, exSuiteB] (fun _ => true) [] [] 0 =
      tc_main [] ([] : List (Suite Unit)) (fun _ => true) [] [] 0 :=
  tc_main_no_match_reports ["--test", "Zzz", "nope"] [exSuiteA, exSuiteB]
    (fun _ => true) [] [] 0
    { suite_filter := some "Zzz", test_filter := some "nope",
      match_filter := none, xml_file := none, list_only := false }
    rfl rfl rfl rfl

/-- C6. When `tc_main` is given `--xml <path>` and the file at
`<path>` cannot be created, the whole invocation fails immediately with
exit code 1 before any tests run (empty event trace, in particular no
test invocation); when creation succeeds the file is pre-created /
truncated before the run begins (the pre-creation event heads the whole
trace). -/
theorem tc_main_xml_precreate {Env : Type} (args : List String)
    (suites : List (Suite Env)) (canCreate : String → Bool)
    (durss : List (List Nat)) (suiteMss : List Nat) (totalMs : Nat)
    (o : CliOpts) (path : String)
    (hp : tc__parse_args args CliOpts.init = some o)
    (hx : o.xml_file = some path) :
    (canCreate path = false →
      tc_main args suites canCreate durss suiteMss totalMs =
        (.xmlCreateFailed path, []) ∧
      (MainOutcome.xmlCreateFailed path).exitCode = 1) ∧
    (canCreate path = true →
      ∃ evs, tc_main args suites canCreate durss suiteMss totalMs =
        ((tc__main_run o suites canCreate durss suiteMss totalMs).1,
         .filePrecreated path :: evs)) := by
  constructor
  · intro hcc
    refine ⟨?_, rfl⟩
    simp [tc_main, hp, hx, hcc]
  · intro hcc
    refine ⟨(tc__main_run o suites canCreate durss suiteMss totalMs).2, ?_⟩
    simp [tc_main, hp, hx, hcc]

/-- Witness for C6 at a concrete invocation with an uncreatable path. -/
theorem tc_main_xml_precreate_witness :
    tc_main ["--xml", "out.xml"] [exSuiteA] (fun _ => false) [] [] 0 =
      (.xmlCreateFailed "out.xml", []) ∧
    (MainOutcome.xmlCreateFailed "out.xml").exitCode = 1 :=
  (tc_main_xml_precreate ["--xml", "out.xml"] [exSuiteA] (fun _ => false) [] [] 0
    { suite_filter := none, test_filter := none, match_filter := none,
      xml_file := some "out.xml", list_only := false }
    "out.xml" rfl rfl).1 rfl

/-- C9. In the XML report, every Skip-tagged test result is
serialized as a `testcase` element whose `time` attribute is the literal
`"0"`, regardless of the `elapsed_ms` value recorded for that test: the
rendering is invariant under changing `elapsed_ms`, and the element's
text opens with `time="0"`. -/
theorem xml_skip_testcase_time_zero (name : String) (r : TestResult) (ms : Nat)
    (h : r.tag = .TC_SKIP) :
    tc__render_testcase name r =
      tc__render_testcase name { r with elapsed_ms := ms } ∧
    ∃ rest, tc__render_testcase name r =
      "        <testcase name=\"" ++ tc__xml_escape name (TC_MAX_MSG_LEN * 2) ++
        "\" time=\"0\">\n" ++ rest := by
  constructor
  · simp [tc__render_testcase, h]
  · refine ⟨(match r.errors.head? with
      | some e0 =>
          "            <skipped message=\"" ++
            tc__xml_escape e0.message (TC_MAX_MSG_LEN * 2) ++ "\"/>\n"
      | none => "            <skipped/>\n") ++ "        </testcase>\n", ?_⟩
    simp [tc__render_testcase, h, String.append_assoc]

/-- Witness for C9: a dynamic skip that measured 7ms still renders with
`time="0"`. -/
theorem xml_skip_testcase_time_zero_witness :
    tc__render_testcase "n" { tc_skip "why" with elapsed_ms := 7 } =
      tc__render_testcase "n"
        { { tc_skip "why" with elapsed_ms := 7 } with elapsed_ms := 0 } ∧
    ∃ rest, tc__render_testcase "n" { tc_skip "why" with elapsed_ms := 7 } =
      "        <testcase name=\"" ++ tc__xml_escape "n" (TC_MAX_MSG_LEN * 2) ++
        "\" time=\"0\">\n" ++ rest :=
  xml_skip_testcase_time_zero "n" { tc_skip "why" with elapsed_ms := 7 } 0 rfl

/-! ## XML escaping lemmas (C7) -/

/-- Every source character is replaced by at least one character. -/
theorem tc__escape_char_length_pos (c : Char) : 1 ≤ (tc__escape_char c).length := by
  unfold tc__escape_char
  split_ifs <;> simp

/-- While the escaped output fits under the `max - 6` bound, the
truncating loop produces the full escape. -/
theorem tc__xml_escape_go_of_fits (src : List Char) (di max : Nat)
    (h : di + (tc__escape_full src).length ≤ max - 6) :
    tc__xml_escape_go src di max = tc__escape_full src := by
  induction src generalizing di with
  | nil => rfl
  | cons c rest ih =>
    have hc : 1 ≤ (tc__escape_char c).length := tc__escape_char_length_pos c
    have hlen : (tc__escape_full (c :: rest)).length =
        (tc__escape_char c).length + (tc__escape_full rest).length := by
      simp [tc__escape_full]
    rw [show tc__xml_escape_go (c :: rest) di max =
        (if di < max - 6 then
          tc__escape_char c ++
            tc__xml_escape_go rest (di + (tc__escape_char c).length) max
        else []) from rfl]
    rw [if_pos (by omega)]
    rw [show tc__escape_full (c :: rest) =
        tc__escape_char c ++ tc__escape_full rest from rfl]
    congr 1
    exact ih (di + (tc__escape_char c).length) (by omega)

set_option maxHeartbeats 1000000 in
/-- Un-escaping consumes one emitted replacement back into its source
character, whatever follows it. -/
theorem tc__xml_unescape_escape_char (c : Char) (t : List Char) :
    tc__xml_unescape (tc__escape_char c ++ t) = c :: tc__xml_unescape t := by
  by_cases h1 : c = '&'
  · subst h1; rfl
  by_cases h2 : c = '<'
  · subst h2; rfl
  by_cases h3 : c = '>'
  · subst h3; rfl
  by_cases h4 : c = tc__quoteChar
  · subst h4; rfl
  by_cases h5 : c = tc__aposChar
  · subst h5; rfl
  have he : tc__escape_char c = [c] := by
    simp [tc__escape_char, h1, h2, h3, h4, h5]
  rw [he, List.singleton_append]
  conv_lhs => rw [tc__xml_unescape.eq_def]
  simp [h1]

/-- The untruncated escape round-trips. -/
theorem tc__xml_unescape_escape_full (s : List Char) :
    tc__xml_unescape (tc__escape_full s) = s := by
  induction s with
  | nil => rfl
  | cons c rest ih =>
    rw [show tc__escape_full (c :: rest) =
      tc__escape_char c ++ tc__escape_full rest from rfl]
    rw [tc__xml_unescape_escape_char, ih]

/-- C7 (amended). The XML escaping function replaces every occurrence
of each of the five reserved markup characters with its standard named
substitution, and un-escaping the produced text yields the original
string back, *provided the fully escaped text fits the destination
buffer* (length at most `max - 6`); an input whose escaped form exceeds
the buffer (possible already for messages within the `TC_MAX_MSG_LEN`
bound) is truncated and only a proper prefix survives the round-trip. -/
theorem xml_escape_roundtrip (s : List Char) (max : Nat)
    (h : (tc__escape_full s).length ≤ max - 6) :
    tc__xml_escape_go s 0 max = tc__escape_full s ∧
    tc__xml_unescape (tc__xml_escape_go s 0 max) = s := by
  have h0 := tc__xml_escape_go_of_fits s 0 max (by omega)
  exact ⟨h0, by rw [h0]; exact tc__xml_unescape_escape_full s⟩

/-- Witness for C7's amended theorem: a short string containing all five
reserved characters round-trips through the `TC_MAX_MSG_LEN * 2` buffer. -/
theorem xml_escape_roundtrip_witness :
    tc__xml_escape_go ("a&b<c>d".data ++ [tc__quoteChar, tc__aposChar]) 0
        (TC_MAX_MSG_LEN * 2) =
      tc__escape_full ("a&b<c>d".data ++ [tc__quoteChar, tc__aposChar]) ∧
    tc__xml_unescape (tc__xml_escape_go ("a&b<c>d".data ++
        [tc__quoteChar, tc__aposChar]) 0 (TC_MAX_MSG_LEN * 2)) =
      "a&b<c>d".data ++ [tc__quoteChar, tc__aposChar] :=
  xml_escape_roundtrip ("a&b<c>d".data ++ [tc__quoteChar, tc__aposChar])
    (TC_MAX_MSG_LEN * 2) (by decide)

set_option maxRecDepth 100000 in
set_option maxHeartbeats 1000000 in
/-- C7 counterexample. A message of 171 `"` characters is well within
the configured message bound (`171 < TC_MAX_MSG_LEN`), yet escaping it
into the writer's `TC_MAX_MSG_LEN * 2` buffer stops after 170 entities
(the `di < max - 6` guard), so un-escaping the produced text does not
yield the original string back. -/
theorem xml_escape_roundtrip_cex :
    171 < TC_MAX_MSG_LEN ∧
    tc__xml_unescape (tc__xml_escape_go (List.replicate 171 tc__quoteChar) 0
        (TC_MAX_MSG_LEN * 2)) ≠ List.replicate 171 tc__quoteChar :=
  ⟨by decide, by decide⟩

end TestCracks
